import Mathlib

/-!
Shallow embedding of py-zabbix `pyzabbix/sender.py` (Zabbix trapper
protocol client): frame codec, receive loop, response parsing, chunked
batch submission, and aggregate accumulation.  Bytes are modelled as
`Nat` values below 256, Python `Decimal` as `ℚ`, Python exceptions as an
explicit `Except` error channel, and the network as explicit data
(a schedule of segments a socket delivers, or an oracle giving the
decoded response of one exchange).
-/

namespace PyZabbix

/-! ### Byte packing: struct.pack / struct.unpack with format <Q -/

/-- Little-endian base-256 digits, fixed width `k` (models `struct.pack`). -/
def packLE : Nat → Nat → List Nat
  | 0, _ => []
  | k + 1, n => n % 256 :: packLE k (n / 256)

/-- Little-endian base-256 value of a byte list (models `struct.unpack`). -/
def unpackLE (bs : List Nat) : Nat :=
  bs.foldr (fun b acc => b + 256 * acc) 0

/-- Python exception value.  `exnResp` is `raise Exception(response)`:
an exception carrying the raw decoded response object. -/
inductive PyExn where
  | exn (msg : String)
  | exnResp (fields : List (String × String))
deriving DecidableEq

/-- `struct.pack`, format `<Q`: 8 little-endian bytes; raises
`struct.error` when the value does not fit in 64 bits. -/
def structPackQ (n : Nat) : Except PyExn (List Nat) :=
  if n < 2 ^ 64 then .ok (packLE 8 n) else .error (.exn "struct.error: int too large")

/-! ### UTF-8 encoding (Python str.encode, for the request body) -/

/-- UTF-8 bytes of one character. -/
def utf8Char (c : Char) : List Nat :=
  let n := c.toNat
  if n < 128 then [n]
  else if n < 2048 then [192 + n / 64, 128 + n % 64]
  else if n < 65536 then [224 + n / 4096, 128 + n / 64 % 64, 128 + n % 64]
  else [240 + n / 262144, 128 + n / 4096 % 64, 128 + n / 64 % 64, 128 + n % 64]

/-- UTF-8 bytes of a string (models Python `s.encode("utf-8")`). -/
def utf8Encode (s : String) : List Nat :=
  (s.data.map utf8Char).flatten

/-! ### json.dumps of a metric dict (ensure_ascii=True, default separators) -/

/-- Lower-case hex digit. -/
def hexDigitChar (n : Nat) : Char :=
  if n < 10 then Char.ofNat (48 + n) else Char.ofNat (87 + n)

/-- A JSON `\uXXXX` escape. -/
def uEscape (n : Nat) : String :=
  String.mk ['\\', 'u', hexDigitChar (n / 4096 % 16), hexDigitChar (n / 256 % 16),
             hexDigitChar (n / 16 % 16), hexDigitChar (n % 16)]

/-- How `json.dumps` (default `ensure_ascii=True`) renders one character
inside a JSON string. -/
def jsonEscapeChar (c : Char) : String :=
  if c = '"' then "\\\""
  else if c = '\\' then "\\\\"
  else if c = '\n' then "\\n"
  else if c = '\r' then "\\r"
  else if c = '\t' then "\\t"
  else if c.toNat = 8 then "\\b"
  else if c.toNat = 12 then "\\f"
  else if c.toNat < 32 then uEscape c.toNat
  else if c.toNat < 127 then String.singleton c
  else if c.toNat < 65536 then uEscape c.toNat
  else uEscape (55296 + (c.toNat - 65536) / 1024) ++ uEscape (56320 + (c.toNat - 65536) % 1024)

/-- A JSON string literal as `json.dumps` renders it. -/
def jsonStr (s : String) : String :=
  "\"" ++ String.join (s.data.map jsonEscapeChar) ++ "\""

/-! ### Python argument values and the ZabbixMetric constructor -/

/-- The Python values a caller can pass as the `clock` argument. -/
inductive PyVal where
  | pyNone
  | int (i : Int)
  | str (s : String)
deriving DecidableEq

/-- Python truthiness of a `PyVal` (the `if clock:` test). -/
def PyVal.truthy : PyVal → Bool
  | .pyNone => false
  | .int i => i != 0
  | .str s => s != ""

/-- One metric, as its constructor leaves it: `clock = none` means the
instance has no `clock` attribute at all. -/
structure ZabbixMetric where
  host : String
  key : String
  value : String
  clock : Option Int
deriving DecidableEq

/-- `ZabbixMetric.__init__`: host/key/value are stored (as strings);
`if clock:` then a numeric clock is stored via `int(...)`, a non-numeric
one raises; a falsy clock is skipped entirely. -/
def ZabbixMetric.init (host key value : String) (clock : PyVal) :
    Except PyExn ZabbixMetric :=
  if clock.truthy then
    match clock with
    | .int i => .ok ⟨host, key, value, some i⟩
    | _ => .error (.exn "Clock must be time in unixtime format")
  else .ok ⟨host, key, value, none⟩

/-- `ZabbixMetric.__repr__`: `json.dumps(self.__dict__)`, attribute
insertion order host, key, value, then clock when present. -/
def metricRepr (m : ZabbixMetric) : String :=
  match m.clock with
  | some t =>
    "\x7b\"host\": " ++ jsonStr m.host ++ ", \"key\": " ++ jsonStr m.key ++
    ", \"value\": " ++ jsonStr m.value ++ ", \"clock\": " ++ toString t ++ "\x7d"
  | none =>
    "\x7b\"host\": " ++ jsonStr m.host ++ ", \"key\": " ++ jsonStr m.key ++
    ", \"value\": " ++ jsonStr m.value ++ "\x7d"

/-! ### Frame codec: _create_messages, _create_request, _create_packet -/

/-- `ZabbixSender._create_messages`: `str(m)` for each metric. -/
def createMessages (metrics : List ZabbixMetric) : List String :=
  metrics.map metricRepr

/-- `ZabbixSender._create_request`: wrap the comma-joined messages in the
sender-data JSON shape and UTF-8 encode. -/
def createRequest (messages : List String) : List Nat :=
  utf8Encode ("\x7b\"request\":\"sender data\",\"data\":[" ++
              String.intercalate "," messages ++ "]\x7d")

/-- `ZabbixSender._create_packet`: magic ZBXD, version byte 1, 8-byte
little-endian body length, then the body. -/
def createPacket (request : List Nat) : Except PyExn (List Nat) :=
  match structPackQ request.length with
  | .ok dataLen => .ok ([90, 66, 88, 68, 1] ++ dataLen ++ request)
  | .error ex => .error ex

/-- The packet built for one chunk of metrics (messages → request → packet). -/
def packetOf (metrics : List ZabbixMetric) : Except PyExn (List Nat) :=
  createPacket (createRequest (createMessages metrics))

/-! ### Socket model and the _receive loop -/

/-- What the peer will deliver: successive `recv` calls return (up to) one
segment each; an exhausted schedule is a closed connection (`recv` = b''). -/
abbrev SockData := List (List Nat)

/-- One `sock.recv(n)` call: at most `n` bytes from the next segment;
empty result once the schedule is exhausted (peer closed). -/
def recv (s : SockData) (n : Nat) : List Nat × SockData :=
  match s with
  | [] => ([], [])
  | seg :: rest =>
    let chunk := seg.take n
    let rem := seg.drop n
    (chunk, if rem.isEmpty then rest else rem :: rest)

/-- The body of `ZabbixSender._receive`: accumulate until `count` bytes
are buffered or a `recv` returns empty (peer closed). -/
def receiveAux (sock : SockData) (count : Nat) (buf : List Nat) :
    List Nat × SockData :=
  if h : buf.length < count then
    let r := recv sock (count - buf.length)
    if hc : r.1.isEmpty then (buf, r.2)
    else receiveAux r.2 count (buf ++ r.1)
  else (buf, sock)
termination_by count - buf.length
decreasing_by
  simp only [List.isEmpty_iff] at hc
  have hlen : 0 < ((recv sock (count - buf.length)).1).length := List.length_pos.mpr hc
  simp only [List.length_append]
  omega

/-- `ZabbixSender._receive(sock, count)`. -/
def receive (sock : SockData) (count : Nat) : List Nat × SockData :=
  receiveAux sock count []

/-! ### _get_response -/

/-- The decoded value `_get_response` hands back: either the `False`
sentinel or the dict `json.loads` produced (response payloads are flat
string-valued JSON objects). -/
inductive PyObj where
  | pyFalse
  | pyDict (fields : List (String × String))
deriving DecidableEq

/-- Python truthiness: `False` is falsy, a dict is truthy iff nonempty. -/
def PyObj.truthy : PyObj → Bool
  | .pyFalse => false
  | .pyDict fields => !fields.isEmpty

/-- `response.get(key)` (never reached on `False` in the source because
`and` short-circuits; modelled as `none` there). -/
def PyObj.get : PyObj → String → Option String
  | .pyFalse, _ => none
  | .pyDict fields, k => (fields.find? (fun p => p.1 == k)).map Prod.snd

/-- The header test of `_get_response`:
`response_header.startswith(b"ZBXD\x01") and len(response_header) == 13`. -/
def headerOk (h : List Nat) : Bool :=
  decide (h.take 5 = [90, 66, 88, 68, 1]) && decide (h.length = 13)

/-- `ZabbixSender._get_response`: read 13 header bytes via the receive
loop; on a bad header the result is `False`; otherwise read the
advertised body length with a single `recv` and `json.loads` it.
`jsonLoads` is the external `json` collaborator. -/
def getResponse (jsonLoads : List Nat → Except PyExn (List (String × String)))
    (sock : SockData) : Except PyExn PyObj :=
  let hr := receive sock 13
  if headerOk hr.1 then
    let responseLen := unpackLE (hr.1.drop 5)
    let body := (recv hr.2 responseLen).1
    match jsonLoads body with
    | .ok fields => .ok (.pyDict fields)
    | .error ex => .error ex
  else .ok .pyFalse

/-! ### ZabbixResponse: the info regex and accumulation -/

/-- The four captured groups of the compiled pattern; the fourth group
`(\d*\.\d*)` is kept as its integer and fraction digit runs. -/
structure InfoGroups where
  g1 : String
  g2 : String
  g3 : String
  g4i : String
  g4f : String
deriving DecidableEq

/-- Maximal run of decimal digits (greedy `\d*`; unambiguous here because
every following pattern element starts with a non-digit). -/
def munchDigits : List Char → String × List Char
  | [] => ("", [])
  | c :: rest =>
    if c.isDigit then
      let r := munchDigits rest
      (String.singleton c ++ r.1, r.2)
    else ("", c :: rest)

/-- Match one literal character run. -/
def matchLit : List Char → List Char → Option (List Char)
  | [], s => some s
  | p :: ps, c :: cs => if c = p then matchLit ps cs else none
  | _ :: _, [] => none

/-- Match a two-character class such as `[Pp]`. -/
def matchClass2 (a b : Char) : List Char → Option (List Char)
  | c :: rest => if c = a ∨ c = b then some rest else none
  | [] => none

/-- Optionally consume one character (`:?` / `;?`; deterministic because
the following pattern element is a literal space). -/
def matchOptChar (c : Char) : List Char → List Char
  | d :: rest => if d = c then rest else d :: rest
  | [] => []

/-- One numeric field of the pattern:
class char, literal label, `:?`, space, captured `\d*`, `;?`, space. -/
def matchNumField (capA capB : Char) (label : String) (s : List Char) :
    Option (String × List Char) := do
  let s ← matchClass2 capA capB s
  let s ← matchLit label.data s
  let s := matchOptChar ':' s
  let s ← matchLit [' '] s
  let r := munchDigits s
  let s := matchOptChar ';' r.2
  let s ← matchLit [' '] s
  return (r.1, s)

/-- Attempt the full compiled pattern at the start of `s` (the regex of
`ZabbixResponse.__init__`, with `\d` as ASCII digits). -/
def matchInfoAt (s : List Char) : Option InfoGroups := do
  let (g1, s) ← matchNumField 'P' 'p' "rocessed" s
  let (g2, s) ← matchNumField 'F' 'f' "ailed" s
  let (g3, s) ← matchNumField 'T' 't' "otal" s
  let s ← matchClass2 'S' 's' s
  let s ← matchLit "econds spent".data s
  let s := matchOptChar ':' s
  let s ← matchLit [' '] s
  let r4 := munchDigits s
  let s ← matchLit ['.'] r4.2
  let r5 := munchDigits s
  return ⟨g1, g2, g3, r4.1, r5.1⟩

/-- `self._regex.search(info)`: leftmost position at which the pattern
matches. -/
def searchInfo : List Char → Option InfoGroups
  | [] => matchInfoAt []
  | c :: rest =>
    match matchInfoAt (c :: rest) with
    | some g => some g
    | none => searchInfo rest

/-- Value of a digit string. -/
def digitsVal (s : String) : Nat :=
  s.data.foldl (fun a c => a * 10 + (c.toNat - 48)) 0

/-- Python `int(...)` on a captured digit run: the empty capture raises
`ValueError`. -/
def pyInt (s : String) : Except PyExn Nat :=
  if s = "" then .error (.exn "ValueError: invalid literal for int")
  else .ok (digitsVal s)

/-- Python `Decimal(...)` on the captured `\d*\.\d*` text, split into its
integer and fraction digit runs; a lone dot raises. -/
def pyDecimal (ip fp : String) : Except PyExn ℚ :=
  if ip = "" ∧ fp = "" then .error (.exn "decimal.InvalidOperation")
  else .ok ((digitsVal ip : ℚ) + (digitsVal fp : ℚ) / 10 ^ fp.data.length)

/-- The accumulating counters of `ZabbixResponse`; `time` is the exact
decimal sum, modelled in `ℚ`. -/
structure ZabbixResponse where
  processed : Nat
  failed : Nat
  total : Nat
  time : ℚ
  chunk : Nat
deriving DecidableEq

/-- `ZabbixResponse.__init__`: all counters zero. -/
def ZabbixResponse.initial : ZabbixResponse := ⟨0, 0, 0, 0, 0⟩

/-- `ZabbixResponse.parse`: `response.get("info")` (attribute error on the
`False` sentinel, type error on a missing key), search the pattern
(attribute error on `None` when it does not match), then add the four
captures and bump the chunk counter. -/
def ZabbixResponse.parse (st : ZabbixResponse) (response : PyObj) :
    Except PyExn ZabbixResponse :=
  match response with
  | .pyFalse => .error (.exn "AttributeError: bool object has no attribute get")
  | .pyDict fields =>
    match PyObj.get (.pyDict fields) "info" with
    | none => .error (.exn "TypeError: expected string or bytes-like object")
    | some info =>
      match searchInfo info.data with
      | none => .error (.exn "AttributeError: NoneType object has no attribute group")
      | some g => do
        let p ← pyInt g.g1
        let f ← pyInt g.g2
        let t ← pyInt g.g3
        let d ← pyDecimal g.g4i g.g4f
        return ⟨st.processed + p, st.failed + f, st.total + t, st.time + d, st.chunk + 1⟩

/-! ### ZabbixSender: endpoints, chunk dispatch, send -/

/-- One configured (address, port) destination. -/
abbrev Endpoint := String × Nat

/-- Sender configuration set by `ZabbixSender.__init__`. -/
structure ZabbixSender where
  zabbix_uri : List Endpoint
  chunk_size : Nat

/-- The rejection test of `_chunk_send`:
`response and response.get("response") != "success"`. -/
def rejects (r : PyObj) : Bool :=
  r.truthy && !(r.get "response" == some "success")

/-- The endpoint loop of `_chunk_send`.  `serve e packet` is the decoded
response one successful exchange with endpoint `e` yields (transport is
the external collaborator).  Returns the loop result (last response kept
in the `response` variable, or the raised exception) together with the
list of endpoints actually exchanged with. -/
def chunkSendLoop (serve : Endpoint → List Nat → PyObj) (packet : List Nat) :
    List Endpoint → Option PyObj → Except PyExn (Option PyObj) × List Endpoint
  | [], response => (.ok response, [])
  | e :: rest, _ =>
    let response := serve e packet
    if rejects response then (.error (.exnResp (match response with
        | .pyDict fields => fields
        | .pyFalse => [])), [e])
    else
      let r := chunkSendLoop serve packet rest (some response)
      (r.1, e :: r.2)

/-- `ZabbixSender._chunk_send`: build the packet once, exchange it with
every configured endpoint in order, raise on the first rejecting
response, and return the last response. -/
def ZabbixSender.chunkSend (z : ZabbixSender) (serve : Endpoint → List Nat → PyObj)
    (metrics : List ZabbixMetric) : Except PyExn PyObj × List Endpoint :=
  match packetOf metrics with
  | .error ex => (.error ex, [])
  | .ok packet =>
    match chunkSendLoop serve packet z.zabbix_uri none with
    | (.ok (some r), tr) => (.ok r, tr)
    | (.ok none, tr) => (.error (.exn "UnboundLocalError: response"), tr)
    | (.error ex, tr) => (.error ex, tr)

/-- The successive `metrics[m : m + chunk_size]` slices taken by the
`range(0, len(metrics), chunk_size)` loop of `send` (step at least 1). -/
def chunksGo (cs : Nat) (hcs : 1 ≤ cs) : List ZabbixMetric → List (List ZabbixMetric)
  | [] => []
  | x :: xs => ((x :: xs).take cs) :: chunksGo cs hcs ((x :: xs).drop cs)
termination_by l => l.length
decreasing_by simp only [List.length_drop, List.length_cons]; omega

/-- The chunk list of `send`; a zero step would raise `ValueError` in
`range`, handled in `ZabbixSender.send`. -/
def chunksOf (cs : Nat) (l : List ZabbixMetric) : List (List ZabbixMetric) :=
  if h : 1 ≤ cs then chunksGo cs h l else []

/-- The chunk loop of `send`: `result.parse(self._chunk_send(chunk))` for
each slice, threading the accumulating `ZabbixResponse` and collecting
the (chunk, endpoint) pairs actually exchanged. -/
def ZabbixSender.sendAux (z : ZabbixSender) (serve : Endpoint → List Nat → PyObj) :
    List (List ZabbixMetric) → ZabbixResponse →
    Except PyExn ZabbixResponse × List (List ZabbixMetric × Endpoint)
  | [], st => (.ok st, [])
  | c :: cs, st =>
    let r := z.chunkSend serve c
    let tr := r.2.map (fun e => (c, e))
    match r.1 with
    | .error ex => (.error ex, tr)
    | .ok resp =>
      match ZabbixResponse.parse st resp with
      | .error ex => (.error ex, tr)
      | .ok st2 =>
        let rest := z.sendAux serve cs st2
        (rest.1, tr ++ rest.2)

/-- `ZabbixSender.send`: fresh zero `ZabbixResponse`, then the
`range(0, len(metrics), chunk_size)` loop (which raises for step 0). -/
def ZabbixSender.send (z : ZabbixSender) (serve : Endpoint → List Nat → PyObj)
    (metrics : List ZabbixMetric) :
    Except PyExn ZabbixResponse × List (List ZabbixMetric × Endpoint) :=
  if 1 ≤ z.chunk_size then z.sendAux serve (chunksOf z.chunk_size metrics) ZabbixResponse.initial
  else (.error (.exn "ValueError: range arg 3 must not be zero"), [])

/-- Modelled from the spec (section 4.3): the aggregation rule in the
spec's words — per chunk the aggregator receives exactly one response,
the final endpoint's, and folds it into the running state. -/
def specLastEndpointAggregate (respOf : List ZabbixMetric → PyObj) :
    List (List ZabbixMetric) → ZabbixResponse → Except PyExn ZabbixResponse
  | [], st => .ok st
  | c :: cs, st =>
    match ZabbixResponse.parse st (respOf c) with
    | .error ex => .error ex
    | .ok st2 => specLastEndpointAggregate respOf cs st2

/-! ### Small helpers for statements and concrete instantiations -/

/-- Total bytes the peer will deliver before closing. -/
def totalAvail (s : SockData) : Nat := (s.map List.length).sum

/-- A trivial external json collaborator for concrete instantiations. -/
def jl0 : List Nat → Except PyExn (List (String × String)) := fun _ => .ok []

/-- A concrete server oracle: port 1 answers success with a well-formed
info line, every other port rejects. -/
def serveMixed : Endpoint → List Nat → PyObj := fun e _ =>
  if e.2 = 1 then
    .pyDict [("response", "success"), ("info", "processed: 1; failed: 0; total: 1; seconds spent: 0.1")]
  else .pyDict [("response", "failed")]

/-- A concrete metric for instantiations. -/
def m0 : ZabbixMetric := ⟨"localhost", "cpu", "20", none⟩

/-- The packet of a chunk, defaulting to `[]` on the (unreachable for
realistic sizes) overlong case. -/
def packetOrNil (c : List ZabbixMetric) : List Nat :=
  match packetOf c with
  | .ok p => p
  | .error _ => []

/-! ## Helper lemmas -/

theorem unpackLE_packLE (k : Nat) : ∀ n : Nat, unpackLE (packLE k n) = n % 256 ^ k := by
  induction k with
  | zero => intro n; simp [packLE, unpackLE, Nat.mod_one]
  | succ k ih =>
    intro n
    have hmul : (256 : Nat) ^ (k + 1) = 256 * 256 ^ k := by ring
    simp only [packLE, unpackLE, List.foldr_cons]
    have : List.foldr (fun b acc => b + 256 * acc) 0 (packLE k (n / 256)) =
        n / 256 % 256 ^ k := ih (n / 256)
    rw [this, hmul, Nat.mod_mul]

/-- A bad 13-byte header check makes `_get_response` return the `False`
sentinel (it never raises there). -/
theorem getResponse_bad_header (jl : List Nat → Except PyExn (List (String × String)))
    (sock : SockData) (hbad : headerOk (receive sock 13).1 = false) :
    getResponse jl sock = .ok .pyFalse := by
  unfold getResponse
  simp [hbad]

/-! ## Claims -/

/-- C1: for every list of metrics the encoded packet is exactly the magic
bytes ZBXD, the version byte 1, the 8-byte little-endian body length, and
the UTF-8 JSON body; the length field decodes to the exact byte length of
the payload that follows. -/
theorem c1_packet_format (metrics : List ZabbixMetric)
    (hlen : (createRequest (createMessages metrics)).length < 2 ^ 64) :
    packetOf metrics =
      .ok ([90, 66, 88, 68, 1] ++ packLE 8 (createRequest (createMessages metrics)).length
           ++ createRequest (createMessages metrics)) ∧
    unpackLE (packLE 8 (createRequest (createMessages metrics)).length) =
      (createRequest (createMessages metrics)).length := by
  constructor
  · unfold packetOf createPacket structPackQ
    rw [if_pos hlen]
  · rw [unpackLE_packLE]
    have h8 : (256 : Nat) ^ 8 = 2 ^ 64 := by norm_num
    rw [h8]
    exact Nat.mod_eq_of_lt hlen

/-- Witness for C1 at a concrete one-metric list. -/
theorem c1_packet_format_witness :
    packetOf [m0] =
      .ok ([90, 66, 88, 68, 1] ++ packLE 8 (createRequest (createMessages [m0])).length
           ++ createRequest (createMessages [m0])) ∧
    unpackLE (packLE 8 (createRequest (createMessages [m0])).length) =
      (createRequest (createMessages [m0])).length :=
  c1_packet_format [m0] (by decide)

/-- C2 counterexample: a received 13-byte header with the wrong magic makes
`_get_response` return the sentinel `False` — it does not raise any
exception (the claimed ProtocolError). -/
theorem c2_counterexample :
    getResponse jl0 [[0, 0, 0, 0, 0, 0, 0, 0, 0, 0, 0, 0, 0]] = .ok .pyFalse ∧
    ¬ ∃ ex, getResponse jl0 [[0, 0, 0, 0, 0, 0, 0, 0, 0, 0, 0, 0, 0]] = Except.error ex := by
  have h : getResponse jl0 [[0, 0, 0, 0, 0, 0, 0, 0, 0, 0, 0, 0, 0]] = .ok .pyFalse := by
    apply getResponse_bad_header
    simp [receive, receiveAux, recv, headerOk]
  refine ⟨h, ?_⟩
  rintro ⟨ex, he⟩
  rw [h] at he
  exact Except.noConfusion he

/-- C2 (amended): for every received header that does not start with the
5 bytes ZBXD + 0x01 or is not exactly 13 bytes, decoding yields the
sentinel value `False` (a silent falsy default) instead of raising a
ProtocolError, and never yields a parsed response dict. -/
theorem c2_bad_header_yields_false
    (jl : List Nat → Except PyExn (List (String × String))) (sock : SockData)
    (hbad : headerOk (receive sock 13).1 = false) :
    getResponse jl sock = .ok .pyFalse :=
  getResponse_bad_header jl sock hbad

/-- Witness for C2's amended theorem. -/
theorem c2_bad_header_yields_false_witness :
    getResponse jl0 [[1, 2, 3, 4, 5, 6, 7, 8, 9, 10, 11, 12, 13]] = .ok .pyFalse :=
  c2_bad_header_yields_false jl0 [[1, 2, 3, 4, 5, 6, 7, 8, 9, 10, 11, 12, 13]]
    (by simp [receive, receiveAux, recv, headerOk])

/-- C9 counterexample: a non-numeric but falsy clock (the empty string) is
accepted without any error, and a negative numeric clock is stored as-is
— so neither "every non-numeric clock fails" nor "clock must be
non-negative" holds as stated. -/
theorem c9_counterexample :
    ZabbixMetric.init "host" "key" "1" (.str "") = .ok ⟨"host", "key", "1", none⟩ ∧
    ZabbixMetric.init "host" "key" "1" (.int (-1)) = .ok ⟨"host", "key", "1", some (-1)⟩ := by
  constructor <;> rfl

/-- C9 (amended): every truthy non-numeric clock argument (a nonempty
string) fails at construction time with the unixtime-format error. -/
theorem c9_truthy_nonnumeric_clock (h k v s : String) (hs : s ≠ "") :
    ZabbixMetric.init h k v (.str s) =
      .error (.exn "Clock must be time in unixtime format") := by
  unfold ZabbixMetric.init
  have ht : (PyVal.str s).truthy = true := by
    simp [PyVal.truthy, hs]
  simp [ht]

/-- Witness for C9's amended theorem. -/
theorem c9_truthy_nonnumeric_clock_witness :
    ZabbixMetric.init "h" "k" "v" (.str "abc") =
      .error (.exn "Clock must be time in unixtime format") :=
  c9_truthy_nonnumeric_clock "h" "k" "v" "abc" (by decide)

/-- C10: every falsy clock argument (including the integer 0 and the empty
string) constructs successfully, the metric carries no clock field, and
its wire JSON has no clock key. -/
theorem c10_falsy_clock_omitted (h k v : String) (c : PyVal) (hc : c.truthy = false) :
    ZabbixMetric.init h k v c = .ok ⟨h, k, v, none⟩ ∧
    metricRepr ⟨h, k, v, none⟩ =
      "\x7b\"host\": " ++ jsonStr h ++ ", \"key\": " ++ jsonStr k ++
      ", \"value\": " ++ jsonStr v ++ "\x7d" := by
  constructor
  · unfold ZabbixMetric.init
    simp [hc]
  · rfl

/-- Witness for C10 at the clock value 0 (a valid Unix timestamp that is
silently dropped). -/
theorem c10_falsy_clock_omitted_witness :
    ZabbixMetric.init "a" "b" "c" (.int 0) = .ok ⟨"a", "b", "c", none⟩ ∧
    metricRepr ⟨"a", "b", "c", none⟩ =
      "\x7b\"host\": " ++ jsonStr "a" ++ ", \"key\": " ++ jsonStr "b" ++
      ", \"value\": " ++ jsonStr "c" ++ "\x7d" :=
  c10_falsy_clock_omitted "a" "b" "c" (.int 0) (by rfl)

/-! ## Chunking lemmas and C4 -/

theorem chunksGo_flatten (cs : Nat) (hcs : 1 ≤ cs) :
    ∀ (n : Nat) (l : List ZabbixMetric), l.length ≤ n → (chunksGo cs hcs l).flatten = l := by
  intro n
  induction n with
  | zero =>
    intro l hl
    have hnil : l = [] := List.eq_nil_of_length_eq_zero (by omega)
    subst hnil
    simp [chunksGo]
  | succ n ih =>
    intro l hl
    match l with
    | [] => simp [chunksGo]
    | x :: xs =>
      rw [chunksGo]
      simp only [List.flatten_cons]
      simp only [List.length_cons] at hl
      rw [ih ((x :: xs).drop cs)
        (by simp only [List.length_drop, List.length_cons]; omega)]
      exact List.take_append_drop cs (x :: xs)

theorem chunksGo_length_le (cs : Nat) (hcs : 1 ≤ cs) :
    ∀ (n : Nat) (l : List ZabbixMetric), l.length ≤ n →
      ∀ c ∈ chunksGo cs hcs l, c.length ≤ cs := by
  intro n
  induction n with
  | zero =>
    intro l hl c hc
    have hnil : l = [] := List.eq_nil_of_length_eq_zero (by omega)
    subst hnil
    simp [chunksGo] at hc
  | succ n ih =>
    intro l hl c hc
    match l with
    | [] => simp [chunksGo] at hc
    | x :: xs =>
      rw [chunksGo] at hc
      simp only [List.length_cons] at hl
      rcases List.mem_cons.mp hc with rfl | hc
      · simp only [List.length_take]
        omega
      · exact ih ((x :: xs).drop cs)
          (by simp only [List.length_drop, List.length_cons]; omega) c hc

/-- C4: for every metric list and chunk size at least 1, `send` splits the
list into consecutive chunks of at most chunk-size entries whose
concatenation is the original list; and an empty metric list performs no
exchange and returns the all-zero aggregate with chunk count 0. -/
theorem c4_chunking :
    (∀ (metrics : List ZabbixMetric) (cs : Nat), 1 ≤ cs →
       (chunksOf cs metrics).flatten = metrics ∧
       ∀ c ∈ chunksOf cs metrics, c.length ≤ cs) ∧
    (∀ (z : ZabbixSender) (serve : Endpoint → List Nat → PyObj), 1 ≤ z.chunk_size →
       z.send serve [] = (.ok ZabbixResponse.initial, [])) := by
  constructor
  · intro metrics cs hcs
    unfold chunksOf
    rw [dif_pos hcs]
    exact ⟨chunksGo_flatten cs hcs metrics.length metrics le_rfl,
           chunksGo_length_le cs hcs metrics.length metrics le_rfl⟩
  · intro z serve hcs
    unfold ZabbixSender.send
    rw [if_pos hcs]
    have hempty : chunksOf z.chunk_size [] = [] := by
      unfold chunksOf
      rw [dif_pos hcs]
      rw [chunksGo]
    rw [hempty]
    rfl

/-- Witness for C4. -/
theorem c4_chunking_witness :
    ((chunksOf 2 [m0, m0, m0]).flatten = [m0, m0, m0] ∧
     ∀ c ∈ chunksOf 2 [m0, m0, m0], c.length ≤ 2) ∧
    (ZabbixSender.mk [("a", 1)] 250).send serveMixed [] =
      (.ok ZabbixResponse.initial, []) :=
  ⟨c4_chunking.1 [m0, m0, m0] 2 (by decide),
   c4_chunking.2 (ZabbixSender.mk [("a", 1)] 250) serveMixed (by decide)⟩

/-! ## Info parsing and accumulation: C6 and C7 -/

/-- Successful accumulation step: when the pattern matches and all
captures convert, `parse` adds the three integer captures, adds the
decimal capture exactly, and bumps the chunk counter by one. -/
theorem parse_groups (st : ZabbixResponse) (fields : List (String × String))
    (info : String) (g : InfoGroups)
    (hget : PyObj.get (.pyDict fields) "info" = some info)
    (hg : searchInfo info.data = some g)
    (h1 : g.g1 ≠ "") (h2 : g.g2 ≠ "") (h3 : g.g3 ≠ "")
    (h4 : ¬(g.g4i = "" ∧ g.g4f = "")) :
    ZabbixResponse.parse st (.pyDict fields) =
      .ok ⟨st.processed + digitsVal g.g1, st.failed + digitsVal g.g2,
           st.total + digitsVal g.g3,
           st.time + ((digitsVal g.g4i : ℚ) + (digitsVal g.g4f : ℚ) / 10 ^ g.g4f.data.length),
           st.chunk + 1⟩ := by
  have e1 : pyInt g.g1 = .ok (digitsVal g.g1) := by unfold pyInt; rw [if_neg h1]
  have e2 : pyInt g.g2 = .ok (digitsVal g.g2) := by unfold pyInt; rw [if_neg h2]
  have e3 : pyInt g.g3 = .ok (digitsVal g.g3) := by unfold pyInt; rw [if_neg h3]
  have e4 : pyDecimal g.g4i g.g4f =
      .ok ((digitsVal g.g4i : ℚ) + (digitsVal g.g4f : ℚ) / 10 ^ g.g4f.data.length) := by
    unfold pyDecimal; rw [if_neg h4]
  simp only [ZabbixResponse.parse, hget, hg, e1, e2, e3, e4]
  rfl

/-- C6: the reference info line parses to processed 3, failed 1, total 4,
time 0.001234; and whenever the pattern does not match the info text
(for instance when the seconds-spent field is missing), parsing fails
with an error rather than producing a count. -/
theorem c6_parse_info :
    (ZabbixResponse.parse ZabbixResponse.initial
       (.pyDict [("response", "success"),
                 ("info", "processed: 3; failed: 1; total: 4; seconds spent: 0.001234")]) =
       .ok ⟨3, 1, 4, (1234 : ℚ) / 1000000, 1⟩) ∧
    (∀ (st : ZabbixResponse) (fields : List (String × String)) (info : String),
       PyObj.get (.pyDict fields) "info" = some info →
       searchInfo info.data = none →
       ZabbixResponse.parse st (.pyDict fields) =
         .error (.exn "AttributeError: NoneType object has no attribute group")) ∧
    searchInfo ("processed: 3; failed: 1; total: 4" : String).data = none := by
  refine ⟨?_, ?_, ?_⟩
  · rw [parse_groups ZabbixResponse.initial
      [("response", "success"),
       ("info", "processed: 3; failed: 1; total: 4; seconds spent: 0.001234")]
      "processed: 3; failed: 1; total: 4; seconds spent: 0.001234"
      ⟨"3", "1", "4", "0", "001234"⟩ (by rfl) (by decide)
      (by decide) (by decide) (by decide) (by decide)]
    norm_num [ZabbixResponse.initial,
      show digitsVal "3" = 3 from rfl, show digitsVal "1" = 1 from rfl,
      show digitsVal "4" = 4 from rfl, show digitsVal "0" = 0 from rfl,
      show digitsVal "001234" = 1234 from rfl,
      show ("001234" : String).data.length = 6 from rfl]
  · intro st fields info hget hsearch
    simp only [ZabbixResponse.parse, hget, hsearch]
  · decide

/-- Witness for C6 (the no-match branch has hypotheses). -/
theorem c6_parse_info_witness :
    ZabbixResponse.parse ZabbixResponse.initial
        (.pyDict [("info", "processed: 3; failed: 1; total: 4")]) =
      .error (.exn "AttributeError: NoneType object has no attribute group") :=
  c6_parse_info.2.1 ZabbixResponse.initial
    [("info", "processed: 3; failed: 1; total: 4")]
    "processed: 3; failed: 1; total: 4" (by rfl) (by decide)

/-- C7: accumulation adds processed, failed and total as integers, adds
time by exact (rational) decimal addition, and increments the chunk
counter by exactly one; accumulating the two reference chunk results
from the zero state yields processed 5, failed 1, total 6, time 0.003,
chunk count 2. -/
theorem c7_accumulate :
    (∀ (st : ZabbixResponse) (info : String) (g : InfoGroups),
       searchInfo info.data = some g →
       g.g1 ≠ "" → g.g2 ≠ "" → g.g3 ≠ "" → ¬(g.g4i = "" ∧ g.g4f = "") →
       ZabbixResponse.parse st (.pyDict [("info", info)]) =
         .ok ⟨st.processed + digitsVal g.g1, st.failed + digitsVal g.g2,
              st.total + digitsVal g.g3,
              st.time + ((digitsVal g.g4i : ℚ) + (digitsVal g.g4f : ℚ) / 10 ^ g.g4f.data.length),
              st.chunk + 1⟩) ∧
    ((ZabbixResponse.parse ZabbixResponse.initial
        (.pyDict [("info", "processed: 3; failed: 1; total: 4; seconds spent: 0.001")])).bind
      (fun st => ZabbixResponse.parse st
        (.pyDict [("info", "processed: 2; failed: 0; total: 2; seconds spent: 0.002")])) =
      .ok ⟨5, 1, 6, (3 : ℚ) / 1000, 2⟩) := by
  constructor
  · intro st info g hg h1 h2 h3 h4
    exact parse_groups st [("info", info)] info g (by simp [PyObj.get]) hg h1 h2 h3 h4
  · rw [parse_groups ZabbixResponse.initial
      [("info", "processed: 3; failed: 1; total: 4; seconds spent: 0.001")]
      "processed: 3; failed: 1; total: 4; seconds spent: 0.001"
      ⟨"3", "1", "4", "0", "001"⟩ (by rfl) (by decide)
      (by decide) (by decide) (by decide) (by decide)]
    simp only [Except.bind]
    rw [parse_groups _
      [("info", "processed: 2; failed: 0; total: 2; seconds spent: 0.002")]
      "processed: 2; failed: 0; total: 2; seconds spent: 0.002"
      ⟨"2", "0", "2", "0", "002"⟩ (by rfl) (by decide)
      (by decide) (by decide) (by decide) (by decide)]
    norm_num [ZabbixResponse.initial,
      show digitsVal "3" = 3 from rfl, show digitsVal "1" = 1 from rfl,
      show digitsVal "4" = 4 from rfl, show digitsVal "0" = 0 from rfl,
      show digitsVal "2" = 2 from rfl,
      show digitsVal "001" = 1 from rfl, show digitsVal "002" = 2 from rfl,
      show ("001" : String).data.length = 3 from rfl,
      show ("002" : String).data.length = 3 from rfl]

/-- Witness for C7's general accumulation step. -/
theorem c7_accumulate_witness :
    ZabbixResponse.parse (ZabbixResponse.mk 10 20 30 (1 : ℚ) 7)
        (.pyDict [("info", "processed: 3; failed: 1; total: 4; seconds spent: 0.001")]) =
      .ok ⟨10 + digitsVal "3", 20 + digitsVal "1", 30 + digitsVal "4",
           (1 : ℚ) + ((digitsVal "0" : ℚ) + (digitsVal "001" : ℚ) / 10 ^ ("001" : String).data.length),
           7 + 1⟩ :=
  c7_accumulate.1 (ZabbixResponse.mk 10 20 30 (1 : ℚ) 7)
    "processed: 3; failed: 1; total: 4; seconds spent: 0.001"
    ⟨"3", "1", "4", "0", "001"⟩ (by decide) (by decide) (by decide) (by decide) (by decide)

/-! ## Rejection fail-fast: C3 -/

theorem truthy_of_get (r : PyObj) (k v : String) (h : r.get k = some v) :
    r.truthy = true := by
  cases r with
  | pyFalse => simp [PyObj.get] at h
  | pyDict fields =>
    cases fields with
    | nil => simp [PyObj.get] at h
    | cons p ps => simp [PyObj.truthy]

theorem rejects_of_get (r : PyObj) (s : String)
    (h : r.get "response" = some s) (hs : s ≠ "success") : rejects r = true := by
  unfold rejects
  rw [truthy_of_get r _ _ h, h]
  simp [hs]

/-- C3: whenever an endpoint returns a decoded response whose response
field exists and is not "success", the chunk loop raises immediately,
carrying the raw response, after exchanging only with the endpoints up
to and including the rejecting one; and a failing chunk makes the send
loop stop without attempting any later chunk. -/
theorem c3_reject_fail_fast :
    (∀ (serve : Endpoint → List Nat → PyObj) (packet : List Nat)
       (pre : List Endpoint) (e : Endpoint) (post : List Endpoint)
       (fields : List (String × String)) (s : String) (r0 : Option PyObj),
       (∀ e2 ∈ pre, rejects (serve e2 packet) = false) →
       serve e packet = .pyDict fields →
       PyObj.get (.pyDict fields) "response" = some s → s ≠ "success" →
       chunkSendLoop serve packet (pre ++ e :: post) r0 =
         (.error (.exnResp fields), pre ++ [e])) ∧
    (∀ (z : ZabbixSender) (serve : Endpoint → List Nat → PyObj)
       (c : List ZabbixMetric) (cs : List (List ZabbixMetric))
       (st : ZabbixResponse) (ex : PyExn) (tr : List Endpoint),
       z.chunkSend serve c = (.error ex, tr) →
       z.sendAux serve (c :: cs) st = (.error ex, tr.map (fun e => (c, e)))) := by
  constructor
  · intro serve packet pre e post fields s
    induction pre with
    | nil =>
      intro r0 hpre hserve hget hs
      have hrej : rejects (PyObj.pyDict fields) = true :=
        rejects_of_get _ s hget hs
      simp only [List.nil_append, chunkSendLoop, hserve, hrej, if_true]
    | cons p pre ih =>
      intro r0 hpre hserve hget hs
      have hp : rejects (serve p packet) = false := hpre p (List.mem_cons_self p pre)
      simp only [List.cons_append, chunkSendLoop, hp, Bool.false_eq_true, if_false,
        List.append_eq]
      rw [ih (some (serve p packet))
        (fun e2 he2 => hpre e2 (List.mem_cons_of_mem p he2)) hserve hget hs]
  · intro z serve c cs st ex tr h
    simp only [ZabbixSender.sendAux, h]

/-- Witness for C3. -/
theorem c3_reject_fail_fast_witness :
    chunkSendLoop serveMixed [] ([("a", 1)] ++ ("b", 2) :: [("c", 1)]) none =
      (.error (.exnResp [("response", "failed")]), [("a", 1), ("b", 2)]) ∧
    (ZabbixSender.mk [("a", 2)] 250).sendAux serveMixed ([] :: [[m0]]) ZabbixResponse.initial =
      (.error (.exnResp [("response", "failed")]),
       ([("a", 2)] : List Endpoint).map (fun e => (([] : List ZabbixMetric), e))) :=
  ⟨c3_reject_fail_fast.1 serveMixed [] [("a", 1)] ("b", 2) [("c", 1)]
     [("response", "failed")] "failed" none (by decide) rfl rfl (by decide),
   c3_reject_fail_fast.2 (ZabbixSender.mk [("a", 2)] 250) serveMixed [] [[m0]]
     ZabbixResponse.initial (.exnResp [("response", "failed")]) [("a", 2)] (by rfl)⟩

/-! ## Last-endpoint aggregation: C8 -/

theorem chunkSendLoop_all_ok (serve : Endpoint → List Nat → PyObj) (packet : List Nat) :
    ∀ (uri : List Endpoint) (r0 : Option PyObj),
      (∀ e ∈ uri, rejects (serve e packet) = false) →
      chunkSendLoop serve packet uri r0 =
        (.ok (uri.foldl (fun _ e => some (serve e packet)) r0), uri) := by
  intro uri
  induction uri with
  | nil => intro r0 _; rfl
  | cons e rest ih =>
    intro r0 h
    have he : rejects (serve e packet) = false := h e (List.mem_cons_self e rest)
    simp only [chunkSendLoop, he, Bool.false_eq_true, if_false, List.foldl_cons]
    rw [ih (some (serve e packet)) (fun e2 he2 => h e2 (List.mem_cons_of_mem e he2))]

theorem chunkSend_last (z : ZabbixSender) (serve : Endpoint → List Nat → PyObj)
    (pre : List Endpoint) (elast : Endpoint) (metrics : List ZabbixMetric) (p : List Nat)
    (hu : z.zabbix_uri = pre ++ [elast])
    (hp : packetOf metrics = .ok p)
    (hall : ∀ e ∈ z.zabbix_uri, rejects (serve e p) = false) :
    z.chunkSend serve metrics = (.ok (serve elast p), pre ++ [elast]) := by
  have hfold : (pre ++ [elast]).foldl (fun _ e => some (serve e p)) none =
      some (serve elast p) := by
    rw [List.foldl_append]
    rfl
  rw [hu] at hall
  simp only [ZabbixSender.chunkSend, hp, hu,
    chunkSendLoop_all_ok serve p (pre ++ [elast]) none hall, hfold]

theorem sendAux_last (z : ZabbixSender) (serve : Endpoint → List Nat → PyObj)
    (pre : List Endpoint) (elast : Endpoint) (pb : List ZabbixMetric → List Nat)
    (hu : z.zabbix_uri = pre ++ [elast]) :
    ∀ (chunks : List (List ZabbixMetric)) (st : ZabbixResponse),
      (∀ c ∈ chunks, packetOf c = .ok (pb c)) →
      (∀ c ∈ chunks, ∀ e ∈ z.zabbix_uri, rejects (serve e (pb c)) = false) →
      (z.sendAux serve chunks st).1 =
        specLastEndpointAggregate (fun c => serve elast (pb c)) chunks st := by
  intro chunks
  induction chunks with
  | nil => intro st _ _; rfl
  | cons c cs ih =>
    intro st hp hall
    have hcs : z.chunkSend serve c = (.ok (serve elast (pb c)), pre ++ [elast]) :=
      chunkSend_last z serve pre elast c (pb c) hu (hp c (List.mem_cons_self c cs))
        (fun e he => hall c (List.mem_cons_self c cs) e he)
    simp only [ZabbixSender.sendAux, hcs, specLastEndpointAggregate]
    cases hparse : ZabbixResponse.parse st (serve elast (pb c)) with
    | error ex => simp [hparse]
    | ok st2 =>
      simp only [hparse]
      exact ih st2 (fun c2 h2 => hp c2 (List.mem_cons_of_mem c h2))
        (fun c2 h2 => hall c2 (List.mem_cons_of_mem c h2))

/-- C8: with several configured endpoints, the aggregate returned by
`send` is exactly the fold, across chunks, of the last configured
endpoint's per-chunk response — endpoint responses are never merged or
summed across endpoints. -/
theorem c8_last_endpoint (z : ZabbixSender) (serve : Endpoint → List Nat → PyObj)
    (pre : List Endpoint) (elast : Endpoint)
    (pb : List ZabbixMetric → List Nat) (metrics : List ZabbixMetric)
    (hu : z.zabbix_uri = pre ++ [elast]) (hcs : 1 ≤ z.chunk_size)
    (hp : ∀ c ∈ chunksOf z.chunk_size metrics, packetOf c = .ok (pb c))
    (hall : ∀ c ∈ chunksOf z.chunk_size metrics, ∀ e ∈ z.zabbix_uri,
        rejects (serve e (pb c)) = false) :
    (z.send serve metrics).1 =
      specLastEndpointAggregate (fun c => serve elast (pb c))
        (chunksOf z.chunk_size metrics) ZabbixResponse.initial := by
  unfold ZabbixSender.send
  rw [if_pos hcs]
  exact sendAux_last z serve pre elast pb hu (chunksOf z.chunk_size metrics)
    ZabbixResponse.initial hp hall

/-- Witness for C8. -/
theorem c8_last_endpoint_witness :
    ((ZabbixSender.mk [("a", 1), ("b", 1)] 1).send serveMixed [m0]).1 =
      specLastEndpointAggregate (fun c => serveMixed ("b", 1) (packetOrNil c))
        (chunksOf 1 [m0]) ZabbixResponse.initial := by
  have hchunks : chunksOf 1 [m0] = [[m0]] := by
    simp [chunksOf, chunksGo]
  exact c8_last_endpoint (ZabbixSender.mk [("a", 1), ("b", 1)] 1) serveMixed
    [("a", 1)] ("b", 1) packetOrNil [m0] rfl (by decide)
    (by rw [hchunks]; intro c hc; simp at hc; subst hc; rfl)
    (by rw [hchunks]; intro c hc; simp at hc; subst hc; decide)

/-! ## Receive loop length: C5 -/

theorem receiveAux_nil (count : Nat) (buf : List Nat) :
    receiveAux [] count buf = (buf, []) := by
  unfold receiveAux
  by_cases hlt : buf.length < count
  · rw [dif_pos hlt]
    simp [recv]
  · rw [dif_neg hlt]

theorem receiveAux_step (sock : SockData) (count : Nat) (buf : List Nat)
    (hlt : buf.length < count) (hne : (recv sock (count - buf.length)).1 ≠ []) :
    receiveAux sock count buf =
      receiveAux (recv sock (count - buf.length)).2 count
        (buf ++ (recv sock (count - buf.length)).1) := by
  conv_lhs => rw [receiveAux]
  rw [dif_pos hlt]
  rw [dif_neg (by simp [List.isEmpty_iff, hne])]

theorem receiveAux_full (sock : SockData) (count : Nat) (buf : List Nat)
    (hge : ¬ buf.length < count) :
    receiveAux sock count buf = (buf, sock) := by
  unfold receiveAux
  rw [dif_neg hge]

theorem totalAvail_recv (seg : List Nat) (rest : SockData) (n : Nat) :
    totalAvail (recv (seg :: rest) n).2 =
      totalAvail (seg :: rest) - (seg.take n).length := by
  simp only [recv]
  by_cases h : (seg.drop n).isEmpty
  · rw [if_pos h]
    have hlen : seg.length - n = 0 := by
      have := congrArg List.length (List.isEmpty_iff.mp h)
      simpa [List.length_drop] using this
    simp only [totalAvail, List.map_cons, List.sum_cons, List.length_take]
    omega
  · rw [if_neg h]
    simp only [totalAvail, List.map_cons, List.sum_cons, List.length_drop,
      List.length_take]
    omega

theorem recv_segs_ne (seg : List Nat) (rest : SockData) (n : Nat)
    (hne : ∀ s ∈ seg :: rest, s ≠ []) :
    ∀ s ∈ (recv (seg :: rest) n).2, s ≠ [] := by
  simp only [recv]
  by_cases h : (seg.drop n).isEmpty
  · rw [if_pos h]
    intro s hs
    exact hne s (List.mem_cons_of_mem seg hs)
  · rw [if_neg h]
    intro s hs
    rcases List.mem_cons.mp hs with rfl | hs2
    · intro h0
      rw [h0] at h
      exact h rfl
    · exact hne s (List.mem_cons_of_mem seg hs2)

theorem receiveAux_len :
    ∀ (t : Nat) (sock : SockData) (count : Nat) (buf : List Nat),
      totalAvail sock ≤ t → (∀ seg ∈ sock, seg ≠ []) → buf.length ≤ count →
      ((receiveAux sock count buf).1).length = min count (buf.length + totalAvail sock) := by
  intro t
  induction t with
  | zero =>
    intro sock count buf htot hne hb
    have hsock : sock = [] := by
      cases sock with
      | nil => rfl
      | cons seg rest =>
        exfalso
        have hseg : 0 < seg.length := List.length_pos.mpr (hne seg (List.mem_cons_self seg rest))
        simp only [totalAvail, List.map_cons, List.sum_cons] at htot
        omega
    subst hsock
    rw [receiveAux_nil count buf]
    simp only [totalAvail, List.map_nil, List.sum_nil, Nat.add_zero]
    omega
  | succ t ih =>
    intro sock count buf htot hne hb
    cases sock with
    | nil =>
      rw [receiveAux_nil count buf]
      simp only [totalAvail, List.map_nil, List.sum_nil, Nat.add_zero]
      omega
    | cons seg rest =>
      by_cases hlt : buf.length < count
      · have hseg : seg ≠ [] := hne seg (List.mem_cons_self seg rest)
        have hsegpos : 0 < seg.length := List.length_pos.mpr hseg
        have hnpos : 0 < count - buf.length := by omega
        have hchunk : (recv (seg :: rest) (count - buf.length)).1 =
            seg.take (count - buf.length) := rfl
        have hchunkne : seg.take (count - buf.length) ≠ [] := by
          intro h0
          have := congrArg List.length h0
          simp only [List.length_take, List.length_nil] at this
          omega
        rw [receiveAux_step (seg :: rest) count buf hlt (by rw [hchunk]; exact hchunkne)]
        have htake : (seg.take (count - buf.length)).length =
            min (count - buf.length) seg.length := List.length_take _ _
        have hclen : (seg.take (count - buf.length)).length ≤ totalAvail (seg :: rest) := by
          simp only [totalAvail, List.map_cons, List.sum_cons, htake]
          omega
        have hcpos : 0 < (seg.take (count - buf.length)).length := by
          rw [htake]
          omega
        have htot2 : totalAvail (recv (seg :: rest) (count - buf.length)).2 =
            totalAvail (seg :: rest) - (seg.take (count - buf.length)).length :=
          totalAvail_recv seg rest (count - buf.length)
        have hblen : (buf ++ (recv (seg :: rest) (count - buf.length)).1).length ≤ count := by
          rw [hchunk]
          simp only [List.length_append, htake]
          omega
        rw [ih _ count _ (by omega) (recv_segs_ne seg rest (count - buf.length) hne) hblen]
        rw [htot2, hchunk]
        simp only [List.length_append]
        omega
      · rw [receiveAux_full (seg :: rest) count buf hlt]
        simp only []
        omega

/-- C5 counterexample: the peer closing after 5 bytes (even with a valid
magic) makes the receive loop return the short buffer and
`_get_response` return `False` — no ConnectionError is raised. -/
theorem c5_counterexample :
    receive [[90, 66, 88, 68, 1]] 13 = ([90, 66, 88, 68, 1], []) ∧
    getResponse jl0 [[90, 66, 88, 68, 1]] = .ok .pyFalse ∧
    ¬ ∃ ex, getResponse jl0 [[90, 66, 88, 68, 1]] = Except.error ex := by
  have h1 : receive [[90, 66, 88, 68, 1]] 13 = ([90, 66, 88, 68, 1], []) := by
    simp [receive, receiveAux, recv]
  have h2 : getResponse jl0 [[90, 66, 88, 68, 1]] = .ok .pyFalse := by
    apply getResponse_bad_header
    rw [h1]
    decide
  refine ⟨h1, h2, ?_⟩
  rintro ⟨ex, he⟩
  rw [h2] at he
  exact Except.noConfusion he

/-- C5 (amended): the transport performs repeated reads accumulating
bytes until 13 header bytes are gathered or the peer closes — the buffer
length is exactly the minimum of 13 and the bytes available; and when
fewer than 13 header bytes arrive, `_get_response` yields the sentinel
`False` (a short header is never parsed), rather than raising a
ConnectionError. -/
theorem c5_receive_header :
    (∀ sock : SockData, (∀ seg ∈ sock, seg ≠ []) →
       ((receive sock 13).1).length = min 13 (totalAvail sock)) ∧
    (∀ (jl : List Nat → Except PyExn (List (String × String))) (sock : SockData),
       ((receive sock 13).1).length ≠ 13 →
       getResponse jl sock = .ok .pyFalse) := by
  constructor
  · intro sock hne
    have h := receiveAux_len (totalAvail sock) sock 13 [] le_rfl hne (by simp)
    simpa [receive] using h
  · intro jl sock hlen
    apply getResponse_bad_header
    unfold headerOk
    simp [hlen]

/-- Witness for C5's amended theorem. -/
theorem c5_receive_header_witness :
    ((receive [[1, 2, 3], [4, 5]] 13).1).length = min 13 (totalAvail [[1, 2, 3], [4, 5]]) ∧
    getResponse jl0 [[7]] = .ok .pyFalse :=
  ⟨c5_receive_header.1 [[1, 2, 3], [4, 5]] (by decide),
   c5_receive_header.2 jl0 [[7]] (by simp [receive, receiveAux, recv])⟩

end PyZabbix
